import Mathlib

/-!
Verification of the faceted search and filter-state reconciliation subsystem of
the Faceted Artifact Explorer repository.

The TypeScript/JavaScript sources are shallowly embedded as executable Lean
definitions:

* primitives of the JavaScript runtime used by the code under test
  (`parseInt`, `Number.prototype.toString`, `String.prototype.split`,
  `Array.prototype.join`, `URLSearchParams`) as pure functions over
  `List Char` / association lists of query parameters;
* the client filter state of `client/src/pages/home-page.tsx` with its
  URL serialization (`buildQueryString`) and hydration from the URL;
* the helpers of `client/src/lib/api.ts` (`buildSearchQueryString`,
  `parseSearchParams`);
* the server search route of `server/routes.ts` (validation via
  `artifactSearchParamsSchema`, `buildElasticsearchQuery`, the relational
  fallback branch, result enrichment with images);
* the pagination control of `client/src/components/pagination.tsx`.
-/

/- ### JavaScript primitive models -/

/-- Decimal digit character for a digit value `0..9` (used to model
`Number.prototype.toString` for integral values). Values `≥ 10` never occur. -/
def digitChar (d : Nat) : Char :=
  match d with
  | 0 => '0' | 1 => '1' | 2 => '2' | 3 => '3' | 4 => '4'
  | 5 => '5' | 6 => '6' | 7 => '7' | 8 => '8' | 9 => '9'
  | _ => '0'

/-- Decimal digit string, most significant digit first; structural recursion on
a fuel argument that strictly dominates the number of divisions by ten. -/
def natDigitsAux (fuel n : Nat) : List Char :=
  match fuel with
  | 0 => []
  | fuel + 1 =>
      if n < 10 then [digitChar n]
      else natDigitsAux fuel (n / 10) ++ [digitChar (n % 10)]

/-- Decimal digit string of a natural number, most significant digit first. -/
def natDigits (n : Nat) : List Char := natDigitsAux (n + 1) n

/-- Model of JavaScript `Number.prototype.toString` (radix 10) restricted to
integral values: optional minus sign followed by decimal digits. -/
def intToString (n : Int) : String :=
  if n < 0 then String.mk ('-' :: natDigits n.natAbs)
  else String.mk (natDigits n.toNat)

/-- Numeric value of a digit character. -/
def digitVal (c : Char) : Nat := c.toNat - 48

/-- Value of a decimal digit string, most significant digit first. -/
def valDigits (l : List Char) : Nat :=
  l.foldl (fun a c => a * 10 + digitVal c) 0

/-- The whitespace characters skipped by JavaScript `parseInt`
(common forms: space, tab, newline, carriage return). -/
def isWsChar (c : Char) : Bool :=
  c == ' ' || c == '\t' || c == '\n' || c == '\r'

/-- Leading run of decimal digits interpreted as a number; `none` when there is
no leading digit (JavaScript `NaN`). Trailing garbage is ignored, as in
`parseInt`. -/
def parseDigitsDec (l : List Char) : Option Nat :=
  let ds := l.takeWhile Char.isDigit
  if ds.isEmpty then none else some (valDigits ds)

/-- Hexadecimal digit test (for the `0x` prefix accepted by `parseInt`). -/
def isHexDigit (c : Char) : Bool :=
  c.isDigit || ('a' ≤ c && c ≤ 'f') || ('A' ≤ c && c ≤ 'F')

/-- Hexadecimal digit value. -/
def hexDigitVal (c : Char) : Nat :=
  if c.isDigit then c.toNat - 48
  else if 'a' ≤ c && c ≤ 'f' then c.toNat - 87
  else c.toNat - 55

/-- Leading run of hexadecimal digits interpreted as a number. -/
def parseDigitsHex (l : List Char) : Option Nat :=
  let ds := l.takeWhile isHexDigit
  if ds.isEmpty then none
  else some (ds.foldl (fun a c => a * 16 + hexDigitVal c) 0)

/-- Unsigned part of JavaScript `parseInt` without an explicit radix: a `0x` or
`0X` prefix switches to hexadecimal, otherwise the leading decimal digits are
taken. -/
def parseUnsignedJS (l : List Char) : Option Nat :=
  match l with
  | c0 :: c1 :: rest =>
      if c0 = '0' ∧ (c1 = 'x' ∨ c1 = 'X') then parseDigitsHex rest
      else parseDigitsDec (c0 :: c1 :: rest)
  | _ => parseDigitsDec l

/-- Sign handling of JavaScript `parseInt` after whitespace has been skipped. -/
def parseIntCore (l : List Char) : Option Int :=
  match l with
  | [] => none
  | c :: rest =>
      if c = '-' then (parseUnsignedJS rest).map (fun n : Nat => -(n : Int))
      else if c = '+' then (parseUnsignedJS rest).map (fun n : Nat => (n : Int))
      else (parseUnsignedJS (c :: rest)).map (fun n : Nat => (n : Int))

/-- Model of JavaScript `parseInt(s)` (no radix argument): skip leading
whitespace, read an optional sign, then the leading digits; `none` models
`NaN`. -/
def parseIntJS (s : String) : Option Int :=
  parseIntCore (s.data.dropWhile isWsChar)

/-- A JavaScript number restricted to the values arising in this code base:
`some n` is the integer `n`, `none` is `NaN` (e.g. from `parseInt` on garbage). -/
abbrev JSNum := Option Int

/-- `toString` of a `JSNum`; `NaN` prints as `"NaN"`. -/
def jsNumToString (n : JSNum) : String :=
  match n with
  | none => "NaN"
  | some n => intToString n

/-- Model of JavaScript `String.prototype.split(",")` on character lists:
splits at every comma; the empty list yields one empty group. -/
def splitCommaChars : List Char → List (List Char)
  | [] => [[]]
  | c :: cs =>
      if c = ',' then [] :: splitCommaChars cs
      else
        match splitCommaChars cs with
        | [] => [[c]]
        | g :: gs => (c :: g) :: gs

/-- Model of JavaScript `String.prototype.split(",")`. -/
def jsSplitComma (s : String) : List String :=
  (splitCommaChars s.data).map String.mk

/-- Model of JavaScript `Array.prototype.join(",")` on character lists. -/
def joinCommaChars : List (List Char) → List Char
  | [] => []
  | [x] => x
  | x :: y :: ys => x ++ ',' :: joinCommaChars (y :: ys)

/-- Model of JavaScript `Array.prototype.join(",")`. -/
def jsJoinComma (l : List String) : String :=
  String.mk (joinCommaChars (l.map String.data))

/-- A URL query string modelled as its ordered list of decoded
(name, value) pairs; percent-encoding performed by `URLSearchParams.toString`
and undone by `URLSearchParams.get` is the identity in this representation. -/
abbrev QueryList := List (String × String)

/-- Model of `URLSearchParams.get`: decoded value of the first parameter with
the given name, `null` (`none`) when absent. -/
def getParam (l : QueryList) (k : String) : Option String :=
  (l.find? (fun p => p.1 == k)).map (fun p => p.2)

/-- One conditional `queryParams.append(k, v)` call: contributes the pair
exactly when the guard of the surrounding `if` holds. -/
def appendIf (c : Prop) [Decidable c] (k v : String) : QueryList :=
  if c then [(k, v)] else []

/-- Model of the JavaScript string-or-null `x || d` idiom: `null` and the empty
string both fall back to the default. -/
def jsOrStr (o : Option String) (d : String) : String :=
  match o with
  | none => d
  | some s => if s = "" then d else s

example : parseIntJS "-3000" = some (-3000) := by decide
example : parseIntJS "2000" = some 2000 := by decide
example : parseIntJS "" = none := by decide
example : parseIntJS "abc" = none := by decide
example : parseIntJS "12abc" = some 12 := by decide
example : parseIntJS "0x10" = some 16 := by decide
example : intToString (-3000) = "-3000" := by decide
example : jsSplitComma "a,,b" = ["a", "", "b"] := by decide
example : jsSplitComma "" = [""] := by decide
example : jsJoinComma ["a", "b"] = "a,b" := by decide

/- ### Lemmas about the JavaScript primitive models -/

theorem digitVal_digitChar (d : Nat) (h : d < 10) : digitVal (digitChar d) = d := by
  interval_cases d <;> decide

theorem isDigit_digitChar (d : Nat) (h : d < 10) : (digitChar d).isDigit = true := by
  interval_cases d <;> decide

theorem natDigitsAux_digits (fuel : Nat) :
    ∀ n, n < fuel → ∀ c ∈ natDigitsAux fuel n, c.isDigit = true := by
  induction fuel with
  | zero => intro n hn; omega
  | succ fuel ih =>
      intro n hn c hc
      unfold natDigitsAux at hc
      by_cases h10 : n < 10
      · rw [if_pos h10] at hc
        simp only [List.mem_singleton] at hc
        exact hc ▸ isDigit_digitChar n h10
      · rw [if_neg h10] at hc
        rcases List.mem_append.mp hc with h | h
        · exact ih (n / 10) (by omega) c h
        · simp only [List.mem_singleton] at h
          exact h ▸ isDigit_digitChar (n % 10) (by omega)

theorem natDigitsAux_ne_nil (fuel n : Nat) (hn : n < fuel) :
    natDigitsAux fuel n ≠ [] := by
  cases fuel with
  | zero => omega
  | succ fuel =>
      unfold natDigitsAux
      by_cases h10 : n < 10
      · rw [if_pos h10]; simp
      · rw [if_neg h10]; simp

theorem valDigits_append_one (l : List Char) (c : Char) :
    valDigits (l ++ [c]) = valDigits l * 10 + digitVal c := by
  simp [valDigits, List.foldl_append]

theorem valDigits_natDigitsAux (fuel : Nat) :
    ∀ n, n < fuel → valDigits (natDigitsAux fuel n) = n := by
  induction fuel with
  | zero => intro n hn; omega
  | succ fuel ih =>
      intro n hn
      unfold natDigitsAux
      by_cases h10 : n < 10
      · rw [if_pos h10]
        simp [valDigits, digitVal_digitChar n h10]
      · rw [if_neg h10]
        rw [valDigits_append_one, ih (n / 10) (by omega),
          digitVal_digitChar (n % 10) (by omega)]
        omega

theorem natDigits_digits (n : Nat) : ∀ c ∈ natDigits n, c.isDigit = true :=
  natDigitsAux_digits (n + 1) n (by omega)

theorem natDigits_ne_nil (n : Nat) : natDigits n ≠ [] :=
  natDigitsAux_ne_nil (n + 1) n (by omega)

theorem valDigits_natDigits (n : Nat) : valDigits (natDigits n) = n :=
  valDigits_natDigitsAux (n + 1) n (by omega)

theorem takeWhile_eq_self_of (p : α → Bool) :
    ∀ l : List α, (∀ a ∈ l, p a = true) → l.takeWhile p = l := by
  intro l
  induction l with
  | nil => intro _; rfl
  | cons a l ih =>
      intro h
      simp only [List.takeWhile_cons, h a (by simp), if_true,
        ih (fun b hb => h b (by simp [hb]))]

theorem isDigit_ne_specials (c : Char) (h : c.isDigit = true) :
    c ≠ '-' ∧ c ≠ '+' ∧ c ≠ 'x' ∧ c ≠ 'X' ∧ isWsChar c = false := by
  have h1 : c ≠ '-' := by rintro rfl; exact absurd h (by decide)
  have h2 : c ≠ '+' := by rintro rfl; exact absurd h (by decide)
  have h3 : c ≠ 'x' := by rintro rfl; exact absurd h (by decide)
  have h4 : c ≠ 'X' := by rintro rfl; exact absurd h (by decide)
  have h5 : c ≠ ' ' := by rintro rfl; exact absurd h (by decide)
  have h6 : c ≠ '\t' := by rintro rfl; exact absurd h (by decide)
  have h7 : c ≠ '\n' := by rintro rfl; exact absurd h (by decide)
  have h8 : c ≠ '\r' := by rintro rfl; exact absurd h (by decide)
  refine ⟨h1, h2, h3, h4, ?_⟩
  simp [isWsChar, h5, h6, h7, h8]

theorem parseDigitsDec_all_digits (l : List Char) (hne : l ≠ [])
    (h : ∀ c ∈ l, c.isDigit = true) : parseDigitsDec l = some (valDigits l) := by
  unfold parseDigitsDec
  rw [takeWhile_eq_self_of Char.isDigit l h]
  simp [hne]

theorem parseUnsignedJS_all_digits (l : List Char) (hne : l ≠ [])
    (h : ∀ c ∈ l, c.isDigit = true) : parseUnsignedJS l = some (valDigits l) := by
  cases l with
  | nil => exact absurd rfl hne
  | cons c0 t =>
      cases t with
      | nil => exact parseDigitsDec_all_digits [c0] (by simp) h
      | cons c1 rest =>
          have hd1 := isDigit_ne_specials c1 (h c1 (by simp))
          show (if c0 = '0' ∧ (c1 = 'x' ∨ c1 = 'X') then parseDigitsHex rest
              else parseDigitsDec (c0 :: c1 :: rest))
            = some (valDigits (c0 :: c1 :: rest))
          rw [if_neg (fun hcon => hcon.2.elim hd1.2.2.1 hd1.2.2.2.1)]
          exact parseDigitsDec_all_digits _ (by simp) h

theorem parseIntCore_cons (c : Char) (rest : List Char) :
    parseIntCore (c :: rest)
      = if c = '-' then (parseUnsignedJS rest).map (fun n : Nat => -(n : Int))
        else if c = '+' then (parseUnsignedJS rest).map (fun n : Nat => (n : Int))
        else (parseUnsignedJS (c :: rest)).map (fun n : Nat => (n : Int)) := rfl

theorem parseIntJS_intToString (n : Int) : parseIntJS (intToString n) = some n := by
  by_cases hn : n < 0
  · rw [intToString, if_pos hn]
    show parseIntCore (('-' :: natDigits n.natAbs).dropWhile isWsChar) = some n
    have hdrop : ('-' :: natDigits n.natAbs).dropWhile isWsChar
        = '-' :: natDigits n.natAbs := by
      rw [List.dropWhile_cons]; simp [isWsChar]
    rw [hdrop, parseIntCore_cons, if_pos rfl]
    rw [parseUnsignedJS_all_digits _ (natDigits_ne_nil _) (natDigits_digits _),
      valDigits_natDigits]
    show some (-(n.natAbs : Int)) = some n
    congr 1
    omega
  · rw [intToString, if_neg hn]
    obtain ⟨c, t, hct⟩ : ∃ c t, natDigits n.toNat = c :: t := by
      rcases hd : natDigits n.toNat with _ | ⟨c, t⟩
      · exact absurd hd (natDigits_ne_nil _)
      · exact ⟨c, t, rfl⟩
    have hdig : ∀ d ∈ c :: t, d.isDigit = true := by
      rw [← hct]; exact natDigits_digits _
    have hc := isDigit_ne_specials c (hdig c (by simp))
    show parseIntCore ((natDigits n.toNat).dropWhile isWsChar) = some n
    rw [hct, List.dropWhile_cons, hc.2.2.2.2]
    simp only [Bool.false_eq_true, if_false]
    rw [parseIntCore_cons, if_neg hc.1, if_neg hc.2.1]
    rw [← hct, parseUnsignedJS_all_digits _ (natDigits_ne_nil _) (natDigits_digits _),
      valDigits_natDigits]
    show some ((n.toNat : Nat) : Int) = some n
    congr 1
    omega

theorem intToString_ne_empty (n : Int) : intToString n ≠ "" := by
  unfold intToString
  split
  · intro h
    have : ('-' :: natDigits n.natAbs) = [] := congrArg String.data h
    simp at this
  · intro h
    exact natDigits_ne_nil n.toNat (congrArg String.data h)

theorem splitCommaChars_cons (c : Char) (cs : List Char) :
    splitCommaChars (c :: cs)
      = if c = ',' then [] :: splitCommaChars cs
        else
          match splitCommaChars cs with
          | [] => [[c]]
          | g :: gs => (c :: g) :: gs := rfl

theorem splitCommaChars_no_comma (l : List Char) (h : ',' ∉ l) :
    splitCommaChars l = [l] := by
  induction l with
  | nil => rfl
  | cons c cs ih =>
      rw [splitCommaChars_cons, if_neg (by rintro rfl; exact h (by simp)),
        ih (fun hm => h (by simp [hm]))]

theorem splitCommaChars_append (x rest : List Char) (h : ',' ∉ x) :
    splitCommaChars (x ++ ',' :: rest) = x :: splitCommaChars rest := by
  induction x with
  | nil =>
      show splitCommaChars (',' :: rest) = [] :: splitCommaChars rest
      rw [splitCommaChars_cons, if_pos rfl]
  | cons c cs ih =>
      show splitCommaChars (c :: (cs ++ ',' :: rest)) = (c :: cs) :: splitCommaChars rest
      rw [splitCommaChars_cons, if_neg (by rintro rfl; exact h (by simp)),
        ih (fun hm => h (by simp [hm]))]

theorem splitCommaChars_joinCommaChars (ls : List (List Char)) (hne : ls ≠ [])
    (h : ∀ l ∈ ls, ',' ∉ l) : splitCommaChars (joinCommaChars ls) = ls := by
  induction ls with
  | nil => exact absurd rfl hne
  | cons x xs ih =>
      cases xs with
      | nil =>
          show splitCommaChars (joinCommaChars [x]) = [x]
          unfold joinCommaChars
          exact splitCommaChars_no_comma x (h x (by simp))
      | cons y ys =>
          show splitCommaChars (x ++ ',' :: joinCommaChars (y :: ys)) = x :: (y :: ys)
          rw [splitCommaChars_append x _ (h x (by simp))]
          rw [ih (by simp) (fun l hl => h l (by simp [hl]))]

theorem map_mk_data (l : List String) : (l.map String.data).map String.mk = l := by
  induction l with
  | nil => rfl
  | cons s t ih => simp only [List.map_cons]; rw [ih]

theorem jsSplitComma_jsJoinComma (l : List String) (hne : l ≠ [])
    (h : ∀ s ∈ l, ',' ∉ s.data) : jsSplitComma (jsJoinComma l) = l := by
  unfold jsSplitComma jsJoinComma
  show (splitCommaChars (joinCommaChars (l.map String.data))).map String.mk = l
  rw [splitCommaChars_joinCommaChars (l.map String.data)
    (by simpa using hne) (by simpa using h)]
  exact map_mk_data l

theorem getParam_nil (k : String) : getParam [] k = none := rfl

theorem getParam_appendIf_self (c : Prop) [Decidable c] (k v : String)
    (rest : QueryList) :
    getParam (appendIf c k v ++ rest) k = if c then some v else getParam rest k := by
  unfold appendIf
  split
  · simp [getParam, List.find?]
  · simp

theorem getParam_appendIf_ne (c : Prop) [Decidable c] (k v k' : String)
    (rest : QueryList) (h : k ≠ k') :
    getParam (appendIf c k v ++ rest) k' = getParam rest k' := by
  have hbeq : (k == k') = false := beq_eq_false_iff_ne.mpr h
  unfold appendIf
  split
  · simp [getParam, List.find?, hbeq]
  · simp

theorem getParam_appendIf_self_nil (c : Prop) [Decidable c] (k v : String) :
    getParam (appendIf c k v) k = if c then some v else none := by
  unfold appendIf
  split
  · simp [getParam, List.find?]
  · rfl

theorem getParam_appendIf_ne_nil (c : Prop) [Decidable c] (k v k' : String)
    (h : k ≠ k') : getParam (appendIf c k v) k' = none := by
  have hbeq : (k == k') = false := beq_eq_false_iff_ne.mpr h
  unfold appendIf
  split
  · simp [getParam, List.find?, hbeq]
  · rfl

/- ### Client filter state (client/src/pages/home-page.tsx) -/

/-- The React state of `HomePage`: `searchQuery`, `cultures`, `materials`,
`dateRange`, `has3dModel`, `sortOption`, `currentPage`. Numeric fields are
`JSNum` because `parseInt` on a malformed deep link yields `NaN`. -/
structure ClientState where
  searchQuery : String
  cultures : List String
  materials : List String
  dateStart : JSNum
  dateEnd : JSNum
  has3dModel : Bool
  sortOption : String
  currentPage : JSNum
deriving DecidableEq, Repr

/-- The default filter state: the `useState` initializers of `HomePage`
evaluated on an empty URL, which coincide with the values installed by
`resetFilters`. -/
def defaultClientState : ClientState :=
  { searchQuery := ""
    cultures := []
    materials := []
    dateStart := some (-3000)
    dateEnd := some 2000
    has3dModel := false
    sortOption := "relevance"
    currentPage := some 1 }

/-- `buildQueryString` of `HomePage`: serializes the filter state, omitting
every default-valued field. Each `if (cond) queryParams.append(k, v)` becomes
one `appendIf` segment, in source order. -/
def buildQueryString (s : ClientState) : QueryList :=
  appendIf (s.searchQuery ≠ "") "query" s.searchQuery ++
  appendIf (s.cultures.length > 0) "cultures" (jsJoinComma s.cultures) ++
  appendIf (s.materials.length > 0) "materials" (jsJoinComma s.materials) ++
  appendIf (s.dateStart ≠ some (-3000)) "dateStart" (jsNumToString s.dateStart) ++
  appendIf (s.dateEnd ≠ some 2000) "dateEnd" (jsNumToString s.dateEnd) ++
  appendIf (s.has3dModel = true) "has3dModel" "true" ++
  appendIf (s.sortOption ≠ "relevance") "sort" s.sortOption ++
  appendIf (s.currentPage ≠ some 1) "page" (jsNumToString s.currentPage)

/-- The facet hydration `params.get(k)?.split(",").filter(Boolean) || []`. -/
def hydrateFacet (v : Option String) : List String :=
  match v with
  | none => []
  | some v => (jsSplitComma v).filter (fun x => x ≠ "")

/-- The `useState` initializers of `HomePage`: hydration of the filter state
from the URL query string. -/
def parseHomeSearch (l : QueryList) : ClientState :=
  { searchQuery := jsOrStr (getParam l "query") ""
    cultures := hydrateFacet (getParam l "cultures")
    materials := hydrateFacet (getParam l "materials")
    dateStart := parseIntJS (jsOrStr (getParam l "dateStart") "-3000")
    dateEnd := parseIntJS (jsOrStr (getParam l "dateEnd") "2000")
    has3dModel := getParam l "has3dModel" = some "true"
    sortOption := jsOrStr (getParam l "sort") "relevance"
    currentPage := parseIntJS (jsOrStr (getParam l "page") "1") }

/-- Normalization as described by the specification's round-trip contract:
clamp out-of-range numeric values (page below 1, dates outside the domain
range, `NaN` from a malformed field) back into range; facet sets are kept
as they are (an empty set already means "no restriction", so "drops empty
sets" is the identity on this representation). -/
def normalizeClient (s : ClientState) : ClientState :=
  { s with
    dateStart := some (max (-3000) (min 2000 (s.dateStart.getD (-3000))))
    dateEnd := some (max (-3000) (min 2000 (s.dateEnd.getD 2000)))
    currentPage := some (max 1 (s.currentPage.getD 1)) }

/-- `toggleCulture` / `toggleMaterial` of `FilterSidebar`: remove the value if
present, append it otherwise. -/
def toggleValue (v : String) (l : List String) : List String :=
  if v ∈ l then l.filter (fun x => x ≠ v) else l ++ [v]

/-- One committed UI transition of the home page: the state setters wired to
the filter sidebar (facet checkbox toggles, the date slider bounded to
`[-3000, 2000]`, the 3D-model checkbox), the sort select (four options), the
pagination control (pages `≥ 1`), the filter chips (`removeFilter`),
`applyFilters` and `resetFilters`. -/
inductive ClientStep : ClientState → ClientState → Prop
  | toggleCulture (v : String) (s : ClientState) :
      ClientStep s { s with cultures := toggleValue v s.cultures }
  | toggleMaterial (v : String) (s : ClientState) :
      ClientStep s { s with materials := toggleValue v s.materials }
  | sliderDateStart (v : Int) (s : ClientState) :
      -3000 ≤ v → v ≤ 2000 →
      ClientStep s { s with dateStart := some v }
  | toggleHas3d (s : ClientState) :
      ClientStep s { s with has3dModel := !s.has3dModel }
  | setSort (m : String) (s : ClientState) :
      m ∈ (["relevance", "date_asc", "date_desc", "az"] : List String) →
      ClientStep s { s with sortOption := m }
  | setPage (n : Int) (s : ClientState) :
      1 ≤ n →
      ClientStep s { s with currentPage := some n }
  | applyFilters (s : ClientState) :
      ClientStep s { s with currentPage := some 1 }
  | removeCulture (v : String) (s : ClientState) :
      ClientStep s { s with cultures := s.cultures.filter (fun x => x ≠ v) }
  | removeMaterial (v : String) (s : ClientState) :
      ClientStep s { s with materials := s.materials.filter (fun x => x ≠ v) }
  | removeDateRange (s : ClientState) :
      ClientStep s { s with dateStart := some (-3000), dateEnd := some 2000 }
  | removeHas3d (s : ClientState) :
      ClientStep s { s with has3dModel := false }
  | reset (s : ClientState) :
      ClientStep s defaultClientState

/-- Filter states reachable from the default state through the public UI
transitions. -/
inductive ReachableClient : ClientState → Prop
  | init : ReachableClient defaultClientState
  | step {s t : ClientState} :
      ReachableClient s → ClientStep s t → ReachableClient t

example : buildQueryString defaultClientState = [] := by decide
example : parseHomeSearch [] = defaultClientState := by decide
example :
    parseHomeSearch [("cultures", "Roman,Greek"), ("page", "2")]
      = { defaultClientState with
            cultures := ["Roman", "Greek"], currentPage := some 2 } := by decide
example :
    buildQueryString { defaultClientState with cultures := ["a,b"] }
      = [("cultures", "a,b")] := by decide
example :
    parseHomeSearch [("cultures", "a,b")]
      = { defaultClientState with cultures := ["a", "b"] } := by decide

/- ### Round-trip lemmas for the home page state -/

/-- Invariant of the UI-reachable filter states: the query text is never set by
a home-page transition, the date slider only moves the start bound within
`[-3000, 2000]`, the end bound stays at its default, pages are at least 1, and
the sort option is one of the four select options. -/
def ClientInv (s : ClientState) : Prop :=
  s.searchQuery = "" ∧
  (∃ d : Int, s.dateStart = some d ∧ -3000 ≤ d ∧ d ≤ 2000) ∧
  s.dateEnd = some 2000 ∧
  (∃ p : Int, s.currentPage = some p ∧ 1 ≤ p) ∧
  s.sortOption ∈ (["relevance", "date_asc", "date_desc", "az"] : List String)

theorem clientInv_default : ClientInv defaultClientState :=
  ⟨rfl, ⟨-3000, rfl, by omega, by omega⟩, rfl, ⟨1, rfl, by omega⟩, by decide⟩

theorem clientInv_of_reachable {s : ClientState} (h : ReachableClient s) :
    ClientInv s := by
  induction h with
  | init => exact clientInv_default
  | step _ hstep ih =>
      cases hstep with
      | toggleCulture v s => exact ih
      | toggleMaterial v s => exact ih
      | sliderDateStart v s h1 h2 =>
          exact ⟨ih.1, ⟨v, rfl, h1, h2⟩, ih.2.2.1, ih.2.2.2.1, ih.2.2.2.2⟩
      | toggleHas3d s => exact ih
      | setSort m s hm =>
          exact ⟨ih.1, ih.2.1, ih.2.2.1, ih.2.2.2.1, hm⟩
      | setPage n s hn =>
          exact ⟨ih.1, ih.2.1, ih.2.2.1, ⟨n, rfl, hn⟩, ih.2.2.2.2⟩
      | applyFilters s =>
          exact ⟨ih.1, ih.2.1, ih.2.2.1, ⟨1, rfl, by omega⟩, ih.2.2.2.2⟩
      | removeCulture v s => exact ih
      | removeMaterial v s => exact ih
      | removeDateRange s =>
          exact ⟨ih.1, ⟨-3000, rfl, by omega, by omega⟩, rfl, ih.2.2.2.1, ih.2.2.2.2⟩
      | removeHas3d s => exact ih
      | reset s => exact clientInv_default

theorem getParam_build_query (s : ClientState) :
    getParam (buildQueryString s) "query"
      = if s.searchQuery ≠ "" then some s.searchQuery else none := by
  unfold buildQueryString
  simp only [List.append_assoc]
  rw [getParam_appendIf_self (s.searchQuery ≠ "") "query" s.searchQuery]
  rw [getParam_appendIf_ne (s.cultures.length > 0) "cultures" (jsJoinComma s.cultures)
    "query" _ (by decide)]
  rw [getParam_appendIf_ne (s.materials.length > 0) "materials" (jsJoinComma s.materials)
    "query" _ (by decide)]
  rw [getParam_appendIf_ne (s.dateStart ≠ some (-3000)) "dateStart"
    (jsNumToString s.dateStart) "query" _ (by decide)]
  rw [getParam_appendIf_ne (s.dateEnd ≠ some 2000) "dateEnd"
    (jsNumToString s.dateEnd) "query" _ (by decide)]
  rw [getParam_appendIf_ne (s.has3dModel = true) "has3dModel" "true" "query" _ (by decide)]
  rw [getParam_appendIf_ne (s.sortOption ≠ "relevance") "sort" s.sortOption
    "query" _ (by decide)]
  rw [getParam_appendIf_ne_nil (s.currentPage ≠ some 1) "page"
    (jsNumToString s.currentPage) "query" (by decide)]

theorem getParam_build_cultures (s : ClientState) :
    getParam (buildQueryString s) "cultures"
      = if s.cultures.length > 0 then some (jsJoinComma s.cultures) else none := by
  unfold buildQueryString
  simp only [List.append_assoc]
  rw [getParam_appendIf_ne (s.searchQuery ≠ "") "query" s.searchQuery
    "cultures" _ (by decide)]
  rw [getParam_appendIf_self (s.cultures.length > 0) "cultures" (jsJoinComma s.cultures)]
  rw [getParam_appendIf_ne (s.materials.length > 0) "materials" (jsJoinComma s.materials)
    "cultures" _ (by decide)]
  rw [getParam_appendIf_ne (s.dateStart ≠ some (-3000)) "dateStart"
    (jsNumToString s.dateStart) "cultures" _ (by decide)]
  rw [getParam_appendIf_ne (s.dateEnd ≠ some 2000) "dateEnd"
    (jsNumToString s.dateEnd) "cultures" _ (by decide)]
  rw [getParam_appendIf_ne (s.has3dModel = true) "has3dModel" "true" "cultures" _ (by decide)]
  rw [getParam_appendIf_ne (s.sortOption ≠ "relevance") "sort" s.sortOption
    "cultures" _ (by decide)]
  rw [getParam_appendIf_ne_nil (s.currentPage ≠ some 1) "page"
    (jsNumToString s.currentPage) "cultures" (by decide)]

theorem getParam_build_materials (s : ClientState) :
    getParam (buildQueryString s) "materials"
      = if s.materials.length > 0 then some (jsJoinComma s.materials) else none := by
  unfold buildQueryString
  simp only [List.append_assoc]
  rw [getParam_appendIf_ne (s.searchQuery ≠ "") "query" s.searchQuery
    "materials" _ (by decide)]
  rw [getParam_appendIf_ne (s.cultures.length > 0) "cultures" (jsJoinComma s.cultures)
    "materials" _ (by decide)]
  rw [getParam_appendIf_self (s.materials.length > 0) "materials"
    (jsJoinComma s.materials)]
  rw [getParam_appendIf_ne (s.dateStart ≠ some (-3000)) "dateStart"
    (jsNumToString s.dateStart) "materials" _ (by decide)]
  rw [getParam_appendIf_ne (s.dateEnd ≠ some 2000) "dateEnd"
    (jsNumToString s.dateEnd) "materials" _ (by decide)]
  rw [getParam_appendIf_ne (s.has3dModel = true) "has3dModel" "true" "materials" _ (by decide)]
  rw [getParam_appendIf_ne (s.sortOption ≠ "relevance") "sort" s.sortOption
    "materials" _ (by decide)]
  rw [getParam_appendIf_ne_nil (s.currentPage ≠ some 1) "page"
    (jsNumToString s.currentPage) "materials" (by decide)]

theorem getParam_build_dateStart (s : ClientState) :
    getParam (buildQueryString s) "dateStart"
      = if s.dateStart ≠ some (-3000) then some (jsNumToString s.dateStart)
        else none := by
  unfold buildQueryString
  simp only [List.append_assoc]
  rw [getParam_appendIf_ne (s.searchQuery ≠ "") "query" s.searchQuery
    "dateStart" _ (by decide)]
  rw [getParam_appendIf_ne (s.cultures.length > 0) "cultures" (jsJoinComma s.cultures)
    "dateStart" _ (by decide)]
  rw [getParam_appendIf_ne (s.materials.length > 0) "materials" (jsJoinComma s.materials)
    "dateStart" _ (by decide)]
  rw [getParam_appendIf_self (s.dateStart ≠ some (-3000)) "dateStart"
    (jsNumToString s.dateStart)]
  rw [getParam_appendIf_ne (s.dateEnd ≠ some 2000) "dateEnd"
    (jsNumToString s.dateEnd) "dateStart" _ (by decide)]
  rw [getParam_appendIf_ne (s.has3dModel = true) "has3dModel" "true" "dateStart" _ (by decide)]
  rw [getParam_appendIf_ne (s.sortOption ≠ "relevance") "sort" s.sortOption
    "dateStart" _ (by decide)]
  rw [getParam_appendIf_ne_nil (s.currentPage ≠ some 1) "page"
    (jsNumToString s.currentPage) "dateStart" (by decide)]

theorem getParam_build_dateEnd (s : ClientState) :
    getParam (buildQueryString s) "dateEnd"
      = if s.dateEnd ≠ some 2000 then some (jsNumToString s.dateEnd) else none := by
  unfold buildQueryString
  simp only [List.append_assoc]
  rw [getParam_appendIf_ne (s.searchQuery ≠ "") "query" s.searchQuery
    "dateEnd" _ (by decide)]
  rw [getParam_appendIf_ne (s.cultures.length > 0) "cultures" (jsJoinComma s.cultures)
    "dateEnd" _ (by decide)]
  rw [getParam_appendIf_ne (s.materials.length > 0) "materials" (jsJoinComma s.materials)
    "dateEnd" _ (by decide)]
  rw [getParam_appendIf_ne (s.dateStart ≠ some (-3000)) "dateStart"
    (jsNumToString s.dateStart) "dateEnd" _ (by decide)]
  rw [getParam_appendIf_self (s.dateEnd ≠ some 2000) "dateEnd"
    (jsNumToString s.dateEnd)]
  rw [getParam_appendIf_ne (s.has3dModel = true) "has3dModel" "true" "dateEnd" _ (by decide)]
  rw [getParam_appendIf_ne (s.sortOption ≠ "relevance") "sort" s.sortOption
    "dateEnd" _ (by decide)]
  rw [getParam_appendIf_ne_nil (s.currentPage ≠ some 1) "page"
    (jsNumToString s.currentPage) "dateEnd" (by decide)]

theorem getParam_build_has3d (s : ClientState) :
    getParam (buildQueryString s) "has3dModel"
      = if s.has3dModel = true then some "true" else none := by
  unfold buildQueryString
  simp only [List.append_assoc]
  rw [getParam_appendIf_ne (s.searchQuery ≠ "") "query" s.searchQuery
    "has3dModel" _ (by decide)]
  rw [getParam_appendIf_ne (s.cultures.length > 0) "cultures" (jsJoinComma s.cultures)
    "has3dModel" _ (by decide)]
  rw [getParam_appendIf_ne (s.materials.length > 0) "materials" (jsJoinComma s.materials)
    "has3dModel" _ (by decide)]
  rw [getParam_appendIf_ne (s.dateStart ≠ some (-3000)) "dateStart"
    (jsNumToString s.dateStart) "has3dModel" _ (by decide)]
  rw [getParam_appendIf_ne (s.dateEnd ≠ some 2000) "dateEnd"
    (jsNumToString s.dateEnd) "has3dModel" _ (by decide)]
  rw [getParam_appendIf_self (s.has3dModel = true) "has3dModel" "true"]
  rw [getParam_appendIf_ne (s.sortOption ≠ "relevance") "sort" s.sortOption
    "has3dModel" _ (by decide)]
  rw [getParam_appendIf_ne_nil (s.currentPage ≠ some 1) "page"
    (jsNumToString s.currentPage) "has3dModel" (by decide)]

theorem getParam_build_sort (s : ClientState) :
    getParam (buildQueryString s) "sort"
      = if s.sortOption ≠ "relevance" then some s.sortOption else none := by
  unfold buildQueryString
  simp only [List.append_assoc]
  rw [getParam_appendIf_ne (s.searchQuery ≠ "") "query" s.searchQuery
    "sort" _ (by decide)]
  rw [getParam_appendIf_ne (s.cultures.length > 0) "cultures" (jsJoinComma s.cultures)
    "sort" _ (by decide)]
  rw [getParam_appendIf_ne (s.materials.length > 0) "materials" (jsJoinComma s.materials)
    "sort" _ (by decide)]
  rw [getParam_appendIf_ne (s.dateStart ≠ some (-3000)) "dateStart"
    (jsNumToString s.dateStart) "sort" _ (by decide)]
  rw [getParam_appendIf_ne (s.dateEnd ≠ some 2000) "dateEnd"
    (jsNumToString s.dateEnd) "sort" _ (by decide)]
  rw [getParam_appendIf_ne (s.has3dModel = true) "has3dModel" "true" "sort" _ (by decide)]
  rw [getParam_appendIf_self (s.sortOption ≠ "relevance") "sort" s.sortOption]
  rw [getParam_appendIf_ne_nil (s.currentPage ≠ some 1) "page"
    (jsNumToString s.currentPage) "sort" (by decide)]

theorem getParam_build_page (s : ClientState) :
    getParam (buildQueryString s) "page"
      = if s.currentPage ≠ some 1 then some (jsNumToString s.currentPage)
        else none := by
  unfold buildQueryString
  simp only [List.append_assoc]
  rw [getParam_appendIf_ne (s.searchQuery ≠ "") "query" s.searchQuery
    "page" _ (by decide)]
  rw [getParam_appendIf_ne (s.cultures.length > 0) "cultures" (jsJoinComma s.cultures)
    "page" _ (by decide)]
  rw [getParam_appendIf_ne (s.materials.length > 0) "materials" (jsJoinComma s.materials)
    "page" _ (by decide)]
  rw [getParam_appendIf_ne (s.dateStart ≠ some (-3000)) "dateStart"
    (jsNumToString s.dateStart) "page" _ (by decide)]
  rw [getParam_appendIf_ne (s.dateEnd ≠ some 2000) "dateEnd"
    (jsNumToString s.dateEnd) "page" _ (by decide)]
  rw [getParam_appendIf_ne (s.has3dModel = true) "has3dModel" "true" "page" _ (by decide)]
  rw [getParam_appendIf_ne (s.sortOption ≠ "relevance") "sort" s.sortOption
    "page" _ (by decide)]
  rw [getParam_appendIf_self_nil (s.currentPage ≠ some 1) "page"
    (jsNumToString s.currentPage)]

theorem jsOrStr_some (s d : String) :
    jsOrStr (some s) d = if s = "" then d else s := rfl

theorem filter_ne_empty_eq_self (l : List String) (h : ∀ v ∈ l, v ≠ "") :
    l.filter (fun x => x ≠ "") = l := by
  induction l with
  | nil => rfl
  | cons a t ih =>
      rw [List.filter_cons]
      rw [if_pos (by simpa using h a (by simp))]
      rw [ih (fun v hv => h v (by simp [hv]))]

theorem hydrateFacet_join (l : List String) (h : ∀ v ∈ l, v ≠ "" ∧ ',' ∉ v.data) :
    hydrateFacet (if l.length > 0 then some (jsJoinComma l) else none) = l := by
  by_cases hl : l = []
  · subst hl; rfl
  · rw [if_pos (by cases l with | nil => exact absurd rfl hl | cons a t => simp)]
    show (jsSplitComma (jsJoinComma l)).filter (fun x => x ≠ "") = l
    rw [jsSplitComma_jsJoinComma l hl (fun s hs => (h s hs).2)]
    exact filter_ne_empty_eq_self l (fun v hv => (h v hv).1)

theorem parse_build_eq (s : ClientState) (hInv : ClientInv s)
    (hc : ∀ v ∈ s.cultures, v ≠ "" ∧ ',' ∉ v.data)
    (hm : ∀ v ∈ s.materials, v ≠ "" ∧ ',' ∉ v.data) :
    parseHomeSearch (buildQueryString s) = s := by
  obtain ⟨hq, ⟨d, hds, hd1, hd2⟩, hde, ⟨p, hcp, hp1⟩, hso⟩ := hInv
  have e1 : jsOrStr (getParam (buildQueryString s) "query") "" = s.searchQuery := by
    rw [getParam_build_query, hq]
    rfl
  have e2 : hydrateFacet (getParam (buildQueryString s) "cultures") = s.cultures := by
    rw [getParam_build_cultures]
    exact hydrateFacet_join s.cultures hc
  have e3 : hydrateFacet (getParam (buildQueryString s) "materials") = s.materials := by
    rw [getParam_build_materials]
    exact hydrateFacet_join s.materials hm
  have e4 : parseIntJS (jsOrStr (getParam (buildQueryString s) "dateStart") "-3000")
      = s.dateStart := by
    rw [getParam_build_dateStart, hds]
    by_cases hd : d = -3000
    · subst hd
      rw [if_neg (by simp)]
      decide
    · rw [if_pos (by simpa using hd)]
      show parseIntJS (jsOrStr (some (intToString d)) "-3000") = some d
      rw [jsOrStr_some, if_neg (intToString_ne_empty d)]
      exact parseIntJS_intToString d
  have e5 : parseIntJS (jsOrStr (getParam (buildQueryString s) "dateEnd") "2000")
      = s.dateEnd := by
    rw [getParam_build_dateEnd, hde]
    rw [if_neg (by simp)]
    decide
  have e6 : (decide (getParam (buildQueryString s) "has3dModel" = some "true"))
      = s.has3dModel := by
    rw [getParam_build_has3d]
    cases h3 : s.has3dModel
    · rw [if_neg (by simp [h3])]; decide
    · rw [if_pos rfl]; decide
  have e7 : jsOrStr (getParam (buildQueryString s) "sort") "relevance"
      = s.sortOption := by
    rw [getParam_build_sort]
    by_cases hs : s.sortOption = "relevance"
    · rw [if_neg (by simp [hs]), hs]
      rfl
    · rw [if_pos hs]
      simp only [List.mem_cons, List.not_mem_nil, or_false] at hso
      rcases hso with h | h | h | h <;> rw [h] <;>
        first
        | exact absurd h hs
        | decide
  have e8 : parseIntJS (jsOrStr (getParam (buildQueryString s) "page") "1")
      = s.currentPage := by
    rw [getParam_build_page, hcp]
    by_cases hp : p = 1
    · subst hp
      rw [if_neg (by simp)]
      decide
    · rw [if_pos (by simpa using hp)]
      show parseIntJS (jsOrStr (some (intToString p)) "1") = some p
      rw [jsOrStr_some, if_neg (intToString_ne_empty p)]
      exact parseIntJS_intToString p
  show ClientState.mk
      (jsOrStr (getParam (buildQueryString s) "query") "")
      (hydrateFacet (getParam (buildQueryString s) "cultures"))
      (hydrateFacet (getParam (buildQueryString s) "materials"))
      (parseIntJS (jsOrStr (getParam (buildQueryString s) "dateStart") "-3000"))
      (parseIntJS (jsOrStr (getParam (buildQueryString s) "dateEnd") "2000"))
      (decide (getParam (buildQueryString s) "has3dModel" = some "true"))
      (jsOrStr (getParam (buildQueryString s) "sort") "relevance")
      (parseIntJS (jsOrStr (getParam (buildQueryString s) "page") "1"))
    = s
  rw [e1, e2, e3, e4, e5, e6, e7, e8]

theorem normalizeClient_eq_self (s : ClientState) (hInv : ClientInv s) :
    normalizeClient s = s := by
  obtain ⟨hq, ⟨d, hds, hd1, hd2⟩, hde, ⟨p, hcp, hp1⟩, hso⟩ := hInv
  unfold normalizeClient
  rw [hds, hde, hcp]
  have h1 : max (-3000) (min 2000 ((some d).getD (-3000))) = d := by
    show max (-3000) (min 2000 d) = d
    omega
  have h2 : max (-3000) (min 2000 ((some (2000 : Int)).getD 2000)) = 2000 := by decide
  have h3 : max 1 ((some p).getD 1) = p := by
    show max 1 p = p
    omega
  rw [h1, h2, h3, ← hds, ← hde, ← hcp]

/-- The reachable state `toggleCulture "Roman"` followed by `setPage 2`, used to
exercise the round-trip theorem at a concrete input. -/
def c1WitnessState : ClientState :=
  { defaultClientState with
      cultures := toggleValue "Roman" defaultClientState.cultures } |>
    (fun s => { s with currentPage := some 2 })

/-- The reachable state obtained by toggling the facet value `"a,b"` (a facet
string containing a comma, as the facet catalog may supply). -/
def c1BadState : ClientState :=
  { defaultClientState with
      cultures := toggleValue "a,b" defaultClientState.cultures }

/-- C1 (amended): for every filter state reachable through the public UI
transitions whose facet values are nonempty and contain no comma, hydrating the
URL query string produced by `buildQueryString` restores exactly
`normalize(s)` (which equals `s` on reachable states): same facet sets, date
range, 3D-model flag, sort mode and page. Facet values containing a comma are
excluded because facets are serialized comma-joined without escaping. -/
theorem c1_roundtrip_amended (s : ClientState) (hs : ReachableClient s)
    (hc : ∀ v ∈ s.cultures, v ≠ "" ∧ ',' ∉ v.data)
    (hm : ∀ v ∈ s.materials, v ≠ "" ∧ ',' ∉ v.data) :
    parseHomeSearch (buildQueryString s) = normalizeClient s := by
  have hInv := clientInv_of_reachable hs
  rw [normalizeClient_eq_self s hInv]
  exact parse_build_eq s hInv hc hm

/-- C1 (witness): the round-trip theorem applied to the concrete reachable
state with `cultures = ["Roman"]` and `page = 2`. -/
theorem c1_roundtrip_witness :
    ReachableClient c1WitnessState ∧
    (∀ v ∈ c1WitnessState.cultures, v ≠ "" ∧ ',' ∉ v.data) ∧
    (∀ v ∈ c1WitnessState.materials, v ≠ "" ∧ ',' ∉ v.data) ∧
    parseHomeSearch (buildQueryString c1WitnessState)
      = normalizeClient c1WitnessState := by
  have hr : ReachableClient c1WitnessState :=
    ReachableClient.step
      (ReachableClient.step ReachableClient.init
        (ClientStep.toggleCulture "Roman" defaultClientState))
      (ClientStep.setPage 2 _ (by omega))
  have hc : ∀ v ∈ c1WitnessState.cultures, v ≠ "" ∧ ',' ∉ v.data := by decide
  have hm : ∀ v ∈ c1WitnessState.materials, v ≠ "" ∧ ',' ∉ v.data := by decide
  exact ⟨hr, hc, hm, c1_roundtrip_amended c1WitnessState hr hc hm⟩

/-- C1 (counterexample): the state reached by toggling the facet value
`"a,b"` is reachable through a public UI transition, yet hydrating its
serialized URL does not restore `normalize(s)`: the comma-joined `cultures`
parameter re-splits into `["a", "b"]`. -/
theorem c1_roundtrip_counterexample :
    ReachableClient c1BadState ∧
    parseHomeSearch (buildQueryString c1BadState) ≠ normalizeClient c1BadState :=
  ⟨ReachableClient.step ReachableClient.init
      (ClientStep.toggleCulture "a,b" defaultClientState),
    by decide⟩

/- ### api.ts helpers (client/src/lib/api.ts) -/

/-- An HTTP query value that is sometimes a single string and sometimes an
array of strings (the dynamic shape of `ArtifactSearchParams` facet fields). -/
inductive ZVal
  | one (s : String)
  | many (l : List String)
deriving DecidableEq, Repr

/-- `Array.isArray(x) ? x : [x]` -/
def zvalToList : ZVal → List String
  | .one s => [s]
  | .many l => l

/-- JavaScript truthiness of a string-or-array-or-undefined value: `undefined`
and the empty string are falsy; every array (even empty) is truthy. -/
def zvalTruthy : Option ZVal → Bool
  | none => false
  | some (.one s) => s ≠ ""
  | some (.many _) => true

/-- JavaScript truthiness of a string-or-undefined value. -/
def strTruthy : Option String → Bool
  | none => false
  | some s => s ≠ ""

/-- `Partial<ArtifactSearchParams>`: every field optional; numeric fields may
hold `NaN` (inner `none`) after parsing garbage. -/
structure PartialSearchParams where
  query : Option String
  cultures : Option ZVal
  materials : Option ZVal
  dateStart : Option JSNum
  dateEnd : Option JSNum
  tags : Option ZVal
  site : Option String
  has3dModel : Option Bool
  page : Option JSNum
  limit : Option JSNum
  sort : Option String
deriving DecidableEq, Repr

/-- The record with every parameter absent. -/
def emptyPartialSearchParams : PartialSearchParams :=
  { query := none, cultures := none, materials := none, dateStart := none
    dateEnd := none, tags := none, site := none, has3dModel := none
    page := none, limit := none, sort := none }

/-- `if (params.k) queryParams.append(k, params.k)` for a string field. -/
def strField (o : Option String) (k : String) : QueryList :=
  match o with
  | none => []
  | some v => if v ≠ "" then [(k, v)] else []

/-- `if (params.k) { Array.isArray ? append(join) : append }` for a facet
field. -/
def zvalField (o : Option ZVal) (k : String) : QueryList :=
  match o with
  | none => []
  | some (.one s) => if s ≠ "" then [(k, s)] else []
  | some (.many l) => [(k, jsJoinComma l)]

/-- `if (params.k !== undefined) append(k, params.k.toString())` for a numeric
field. -/
def numField (o : Option JSNum) (k : String) : QueryList :=
  match o with
  | none => []
  | some n => [(k, jsNumToString n)]

/-- `if (params.has3dModel !== undefined) append(k, v.toString())`. -/
def boolField (o : Option Bool) (k : String) : QueryList :=
  match o with
  | none => []
  | some b => [(k, if b then "true" else "false")]

/-- `if (params.sort !== undefined) append("sort", params.sort)` (no
truthiness check: an empty string is still appended). -/
def presentStrField (o : Option String) (k : String) : QueryList :=
  match o with
  | none => []
  | some v => [(k, v)]

/-- `buildSearchQueryString` of `client/src/lib/api.ts`. -/
def buildSearchQueryString (p : PartialSearchParams) : QueryList :=
  strField p.query "query" ++
  zvalField p.cultures "cultures" ++
  zvalField p.materials "materials" ++
  numField p.dateStart "dateStart" ++
  numField p.dateEnd "dateEnd" ++
  zvalField p.tags "tags" ++
  strField p.site "site" ++
  boolField p.has3dModel "has3dModel" ++
  numField p.page "page" ++
  numField p.limit "limit" ++
  presentStrField p.sort "sort"

/-- `parseSearchParams` of `client/src/lib/api.ts`: note that facet values are
split on commas with no filtering of empty tokens. -/
def parseSearchParams (l : QueryList) : PartialSearchParams :=
  { query :=
      match getParam l "query" with
      | none => none
      | some v => if v = "" then none else some v
    cultures :=
      match getParam l "cultures" with
      | none => none
      | some v => if v = "" then none else some (ZVal.many (jsSplitComma v))
    materials :=
      match getParam l "materials" with
      | none => none
      | some v => if v = "" then none else some (ZVal.many (jsSplitComma v))
    dateStart :=
      match getParam l "dateStart" with
      | none => none
      | some v => if v = "" then none else some (parseIntJS v)
    dateEnd :=
      match getParam l "dateEnd" with
      | none => none
      | some v => if v = "" then none else some (parseIntJS v)
    tags :=
      match getParam l "tags" with
      | none => none
      | some v => if v = "" then none else some (ZVal.many (jsSplitComma v))
    site :=
      match getParam l "site" with
      | none => none
      | some v => if v = "" then none else some v
    has3dModel :=
      match getParam l "has3dModel" with
      | none => none
      | some v => some (v = "true")
    page :=
      match getParam l "page" with
      | none => none
      | some v => if v = "" then none else some (parseIntJS v)
    limit :=
      match getParam l "limit" with
      | none => none
      | some v => if v = "" then none else some (parseIntJS v)
    sort :=
      match getParam l "sort" with
      | none => none
      | some v => if v = "" then none else some v }

theorem not_mem_empty_hydrateFacet (o : Option String) : "" ∉ hydrateFacet o := by
  cases o with
  | none => simp [hydrateFacet]
  | some v =>
      simp only [hydrateFacet, List.mem_filter]
      rintro ⟨-, h⟩
      simp at h

/-- C8 (confirmed): serializing the default filter state yields the empty
query string, and parsing the empty query string yields exactly the default
filter state. This holds for the home-page pair (`buildQueryString` omits
every default-valued field; the hydration defaults every absent field) and
for the `api.ts` helpers on the all-absent `Partial<ArtifactSearchParams>`
record, where a default field is an absent field. -/
theorem c8_default_omission :
    buildQueryString defaultClientState = [] ∧
    parseHomeSearch [] = defaultClientState ∧
    buildSearchQueryString emptyPartialSearchParams = [] ∧
    parseSearchParams [] = emptyPartialSearchParams := by decide

/-- C9 (amended): the home-page hydration discards empty tokens when splitting
the comma-joined facet parameters, so the hydrated facet arrays never contain
an empty-string member — but the `parseSearchParams` helper of `api.ts` splits
on commas without discarding empty tokens (see the counterexample). -/
theorem c9_no_empty_facets_amended (l : QueryList) :
    "" ∉ (parseHomeSearch l).cultures ∧ "" ∉ (parseHomeSearch l).materials :=
  ⟨not_mem_empty_hydrateFacet _, not_mem_empty_hydrateFacet _⟩

/-- C9 (witness): the amended theorem applied to a concrete query string whose
`cultures` value contains empty tokens. -/
theorem c9_no_empty_facets_witness :
    "" ∉ (parseHomeSearch [("cultures", "a,,b")]).cultures ∧
    "" ∉ (parseHomeSearch [("cultures", "a,,b")]).materials :=
  c9_no_empty_facets_amended [("cultures", "a,,b")]

/-- C9 (counterexample): `parseSearchParams` applied to `cultures=a,,b` keeps
the empty token: the parsed facet list is `["a", "", "b"]`, which contains the
empty string, and is not the empty-token-free list the claim promises. -/
theorem c9_counterexample :
    (parseSearchParams [("cultures", "a,,b")]).cultures
        = some (ZVal.many ["a", "", "b"]) ∧
    (parseSearchParams [("cultures", "a,,b")]).cultures
        ≠ some (ZVal.many (["a", "", "b"].filter (fun x => x ≠ ""))) := by decide

/- ### Server data model (shared/schema.ts) and storage (server/storage.ts) -/

/-- A row of the `artifacts` table. The `numeric` findspot columns are decimal
strings as returned by the driver; `created_at` is a timestamp modelled as an
epoch integer. -/
structure Artifact where
  id : Int
  title : String
  description : String
  culture : Option String
  period : Option String
  date_start : Option Int
  date_end : Option Int
  materials : Option (List String)
  dimensions : Option String
  provenance : Option String
  id_number : String
  findspot_lat : Option String
  findspot_lng : Option String
  site : Option String
  has_3d_model : Option Bool
  model_url : Option String
  model_type : Option String
  created_at : Option Int
deriving DecidableEq, Repr

/-- A row of the `artifact_images` table. -/
structure ArtifactImage where
  id : Int
  artifact_id : Int
  url : String
  caption : Option String
  is_primary : Option Bool
  sort_order : Option Int
deriving DecidableEq, Repr

/-- The relational store visible to the fallback path: artifact rows and image
rows. -/
structure Store where
  artifacts : List Artifact
  images : List ArtifactImage
deriving DecidableEq, Repr

/-- The sort columns that `getSortFieldFromSearchParams` can produce. -/
inductive SortField
  | id
  | date_start
  | title
deriving DecidableEq, Repr

/-- SQL sort direction. -/
inductive SortDir
  | asc
  | desc
deriving DecidableEq, Repr

/-- Ascending comparison on a nullable integer column with PostgreSQL's
default placement of NULLs (last in ascending order). -/
def optIntLE : Option Int → Option Int → Bool
  | none, none => true
  | none, some _ => false
  | some _, none => true
  | some x, some y => x ≤ y

/-- Ascending comparison keyed on one artifact column. -/
def artifactFieldLE (f : SortField) (a b : Artifact) : Bool :=
  match f with
  | .id => a.id ≤ b.id
  | .date_start => optIntLE a.date_start b.date_start
  | .title => a.title ≤ b.title

/-- `ORDER BY column asc|desc` comparison (descending reverses the ascending
order, which also places NULLs first as PostgreSQL does). -/
def artifactLE (f : SortField) (d : SortDir) (a b : Artifact) : Bool :=
  match d with
  | .asc => artifactFieldLE f a b
  | .desc => artifactFieldLE f b a

/-- Stable insertion used to model `ORDER BY` on a single key; SQL leaves the
relative order of equal keys unspecified, modelled here as the deterministic
stable order. -/
def orderedInsert (le : α → α → Bool) (a : α) : List α → List α
  | [] => [a]
  | b :: bs => if le a b then a :: b :: bs else b :: orderedInsert le a bs

/-- Stable insertion sort. -/
def sortByLE (le : α → α → Bool) (l : List α) : List α :=
  l.foldr (orderedInsert le) []

/-- `DatabaseStorage.listArtifacts`: select all artifacts, order by one
column and direction, then apply `LIMIT`/`OFFSET`. -/
def listArtifacts (store : Store) (limit offset : Int)
    (sortBy : SortField) (sortDir : SortDir) : List Artifact :=
  (((sortByLE (artifactLE sortBy sortDir) store.artifacts).drop offset.toNat).take
    limit.toNat)

/-- `DatabaseStorage.getArtifactImages`: the images of one artifact ordered by
`sort_order` ascending. -/
def getArtifactImages (store : Store) (artifactId : Int) : List ArtifactImage :=
  sortByLE (fun a b => optIntLE a.sort_order b.sort_order)
    (store.images.filter (fun i => i.artifact_id = artifactId))

/-- The enriched result row `{ ...art, image_urls, primary_image_url }`
produced by the `/api/search` handler. -/
structure EnrichedArtifact where
  art : Artifact
  image_urls : List String
  primary_image_url : Option String
deriving DecidableEq, Repr

/-- The per-hit enrichment of the `/api/search` handler: `urls` come from
`getArtifactImages` (ordered by `sort_order`), and
`primary_image_url = urls[0] || null`. -/
def enrichArtifact (store : Store) (a : Artifact) : EnrichedArtifact :=
  let urls := (getArtifactImages store a.id).map (fun i => i.url)
  { art := a
    image_urls := urls
    primary_image_url :=
      match urls with
      | [] => none
      | u :: _ => if u = "" then none else some u }

/- ### Search parameters and the Elasticsearch query compiler
(server/routes.ts) -/

/-- The four values of the `sort` enum of `artifactSearchParamsSchema`. -/
inductive SortMode
  | relevance
  | date_asc
  | date_desc
  | az
deriving DecidableEq, Repr

/-- The output type of `artifactSearchParamsSchema.parse`: validated search
parameters with defaults applied. -/
structure SearchParams where
  query : Option String
  cultures : Option ZVal
  materials : Option ZVal
  dateStart : Option Int
  dateEnd : Option Int
  tags : Option ZVal
  site : Option String
  has3dModel : Bool
  page : Int
  limit : Int
  sort : SortMode
deriving DecidableEq, Repr

/-- One clause of the compiled Elasticsearch query. `dateRange` carries the
`gte` bound placed on `date_start` and the `lte` bound placed on `date_end`
inside the single `range` object the code builds. -/
inductive ESClause
  | multiMatch (q : String) (fields : List String) (fuzziness : String)
  | terms (field : String) (values : List String)
  | termStr (field : String) (v : String)
  | termBool (field : String) (v : Bool)
  | dateRange (gteStart : Option Int) (lteEnd : Option Int)
deriving DecidableEq, Repr

/-- One entry of the compiled `sort` array, e.g. `{ date_start: asc }`. -/
structure ESSort where
  field : String
  order : String
deriving DecidableEq, Repr

/-- The `bool` query of the compiled request. -/
structure ESQueryBool where
  must : List ESClause
  filter : List ESClause
deriving DecidableEq, Repr

/-- The body returned by `buildElasticsearchQuery`:
`{ query, sort: sort.length > 0 ? sort : undefined }`. -/
structure ESRequest where
  query : ESQueryBool
  sort : Option (List ESSort)
deriving DecidableEq, Repr

/-- The `must` clauses pushed by `buildElasticsearchQuery`: the weighted
fuzzy multi-field match when `params.query` is truthy. -/
def esMustClauses (p : SearchParams) : List ESClause :=
  match p.query with
  | none => []
  | some q =>
      if q ≠ "" then
        [ESClause.multiMatch q
          ["title^3", "description^2", "culture", "period", "materials",
            "site", "tags"] "AUTO"]
      else []

/-- `if (params.X) { const xs = Array.isArray ? ... : [...]; if (xs.length > 0)
push({ terms: { field: xs } }) }`. -/
def facetFilter (o : Option ZVal) (field : String) : List ESClause :=
  match o with
  | none => []
  | some z =>
      if zvalTruthy (some z) ∧ (zvalToList z).length > 0 then
        [ESClause.terms field (zvalToList z)]
      else []

/-- The `filter` clauses pushed by `buildElasticsearchQuery`, in source
order: cultures, materials, tags, site, 3D-model flag, date range. -/
def esFilterClauses (p : SearchParams) : List ESClause :=
  facetFilter p.cultures "culture" ++
  facetFilter p.materials "materials" ++
  facetFilter p.tags "tags" ++
  (match p.site with
   | none => []
   | some s => if s ≠ "" then [ESClause.termStr "site" s] else []) ++
  (if p.has3dModel then [ESClause.termBool "has_3d_model" true] else []) ++
  (if p.dateStart ≠ none ∨ p.dateEnd ≠ none then
    [ESClause.dateRange p.dateStart p.dateEnd]
   else [])

/-- The `sort` array pushed by `buildElasticsearchQuery`'s `switch`:
one clause per sort mode, and for `relevance` without a query text the
deterministic `id desc` fallback (with a query text, relevance scoring is used
and the array stays empty). -/
def esSortClauses (p : SearchParams) : List ESSort :=
  match p.sort with
  | .date_asc => [⟨"date_start", "asc"⟩]
  | .date_desc => [⟨"date_start", "desc"⟩]
  | .az => [⟨"title", "asc"⟩]
  | .relevance => if strTruthy p.query then [] else [⟨"id", "desc"⟩]

/-- `buildElasticsearchQuery` of `server/routes.ts`, decomposed into its
`must`, `filter` and `sort` parts. -/
def buildElasticsearchQuery (p : SearchParams) : ESRequest :=
  { query := ⟨esMustClauses p, esFilterClauses p⟩
    sort :=
      if (esSortClauses p).length > 0 then some (esSortClauses p) else none }

/-- Elasticsearch semantics of the compiled `range` clause: every bound that
is present must hold of the document's `date_start` / `date_end` fields. -/
def dateRangeMatches (gteStart lteEnd : Option Int) (aStart aEnd : Int) : Bool :=
  (match gteStart with
   | none => true
   | some s => decide (s ≤ aStart)) &&
  (match lteEnd with
   | none => true
   | some e => decide (aEnd ≤ e))

/-- `getSortFieldFromSearchParams` of `server/routes.ts`. -/
def getSortFieldFromSearchParams (sort : SortMode) : SortField :=
  match sort with
  | .date_asc => .date_start
  | .date_desc => .date_start
  | .az => .title
  | .relevance => .id

/-- `getSortDirectionFromSearchParams` of `server/routes.ts`. -/
def getSortDirectionFromSearchParams (sort : SortMode) : SortDir :=
  match sort with
  | .date_asc => .asc
  | .az => .asc
  | .date_desc => .desc
  | .relevance => .desc

/- ### The /api/search handler (server/routes.ts, fallback and engine paths) -/

/-- `Math.ceil(a / b)` for the positive divisors exercised by the handler
(`limit` defaults to 12); expressed with truncating integer division. -/
def jsCeilDiv (a b : Int) : Int := -((-a) / b)

/-- The `pagination` object of the search response. -/
structure PaginationOut where
  page : Int
  limit : Int
  total : Int
  totalPages : Int
deriving DecidableEq, Repr

/-- The JSON body `{ artifacts, pagination }` sent by `/api/search`; these are
its only keys, in both branches. -/
structure SearchResponse where
  artifacts : List EnrichedArtifact
  pagination : PaginationOut
deriving DecidableEq, Repr

/-- The fallback (no-engine) branch of `/api/search`: `listArtifacts` with the
mapped single sort field and direction and plain limit/offset pagination, each
row enriched with its images; `total` is `artifacts.length`, the number of
rows on the returned page. -/
def fallbackSearchResponse (p : SearchParams) (store : Store) : SearchResponse :=
  let base :=
    listArtifacts store p.limit ((p.page - 1) * p.limit)
      (getSortFieldFromSearchParams p.sort) (getSortDirectionFromSearchParams p.sort)
  let arts := base.map (enrichArtifact store)
  { artifacts := arts
    pagination :=
      { page := p.page
        limit := p.limit
        total := arts.length
        totalPages := jsCeilDiv arts.length p.limit } }

/-- The external Elasticsearch engine, an opaque function from the compiled
request body plus `from`/`size` to a page of hits and the reported total. -/
abbrev ESBackend := ESRequest → Int → Int → (List Artifact × Int)

/-- The engine branch of `/api/search`: run the compiled query, enrich each
hit, report the engine total. -/
def esSearchResponse (backend : ESBackend) (p : SearchParams) (store : Store) :
    SearchResponse :=
  let r := backend (buildElasticsearchQuery p) ((p.page - 1) * p.limit) p.limit
  let arts := r.1.map (enrichArtifact store)
  { artifacts := arts
    pagination :=
      { page := p.page
        limit := p.limit
        total := r.2
        totalPages := jsCeilDiv r.2 p.limit } }

/-- The raw `req.query` values read by the handler. Facet parameters may be a
single string or an array (repeated parameter); the scalar parameters are
single strings. -/
structure RawQuery where
  query : Option String
  cultures : Option ZVal
  materials : Option ZVal
  dateStart : Option String
  dateEnd : Option String
  tags : Option ZVal
  site : Option String
  has3dModel : Option String
  page : Option String
  limit : Option String
  sort : Option String
deriving DecidableEq, Repr

/-- The object the handler passes to `artifactSearchParamsSchema.parse`,
before validation. -/
structure PreParams where
  query : Option String
  cultures : Option ZVal
  materials : Option ZVal
  dateStart : Option JSNum
  dateEnd : Option JSNum
  tags : Option ZVal
  site : Option String
  has3dModel : Bool
  page : JSNum
  limit : JSNum
  sort : String
deriving DecidableEq, Repr

/-- `x ? parseInt(x) : undefined` (the inner `none` is `NaN`). -/
def jsTernaryNum (o : Option String) : Option JSNum :=
  match o with
  | none => none
  | some s => if s = "" then none else some (parseIntJS s)

/-- `x ? parseInt(x) : d`. -/
def jsTernaryNumDefault (o : Option String) (d : Int) : JSNum :=
  match o with
  | none => some d
  | some s => if s = "" then some d else parseIntJS s

/-- The argument object of `artifactSearchParamsSchema.parse` as built by the
handler: `parseInt` on present numeric fields, `=== 'true'` on the flag, and
`req.query.sort || 'relevance'`. -/
def preprocessSearchQuery (r : RawQuery) : PreParams :=
  { query := r.query
    cultures := r.cultures
    materials := r.materials
    dateStart := jsTernaryNum r.dateStart
    dateEnd := jsTernaryNum r.dateEnd
    tags := r.tags
    site := r.site
    has3dModel := r.has3dModel = some "true"
    page := jsTernaryNumDefault r.page 1
    limit := jsTernaryNumDefault r.limit 12
    sort := jsOrStr r.sort "relevance" }

/-- The `z.enum(['relevance', 'date_asc', 'date_desc', 'az'])` check. -/
def sortModeOfString (s : String) : Option SortMode :=
  if s = "relevance" then some .relevance
  else if s = "date_asc" then some .date_asc
  else if s = "date_desc" then some .date_desc
  else if s = "az" then some .az
  else none

/-- The field paths of the `ZodError` issues raised by
`artifactSearchParamsSchema.parse`: `z.number()` rejects `NaN` on the four
numeric fields, and the `sort` enum rejects unknown values; string and
string-or-array fields always pass. -/
def zodIssues (pre : PreParams) : List String :=
  (if pre.dateStart = some none then ["dateStart"] else []) ++
  (if pre.dateEnd = some none then ["dateEnd"] else []) ++
  (if pre.page = none then ["page"] else []) ++
  (if pre.limit = none then ["limit"] else []) ++
  (if sortModeOfString pre.sort = none then ["sort"] else [])

/-- `artifactSearchParamsSchema.parse`: a `ZodError` listing the offending
fields, or the validated parameters with defaults. -/
def validateSearchParams (pre : PreParams) : Except (List String) SearchParams :=
  if _h : zodIssues pre = [] then
    .ok
      { query := pre.query
        cultures := pre.cultures
        materials := pre.materials
        dateStart := pre.dateStart.join
        dateEnd := pre.dateEnd.join
        tags := pre.tags
        site := pre.site
        has3dModel := pre.has3dModel
        page := pre.page.getD 1
        limit := pre.limit.getD 12
        sort := (sortModeOfString pre.sort).getD .relevance }
  else .error (zodIssues pre)

/-- Outcome of one `/api/search` request: the 400 response produced from a
`ZodError`, or the 200 response with the search result. -/
inductive HandlerResult
  | badRequest (message : String) (errorFields : List String)
  | ok (resp : SearchResponse)
deriving DecidableEq, Repr

/-- The `/api/search` handler: validate, then query the engine when the client
exists, else the relational fallback. -/
def searchHandler (es : Option ESBackend) (raw : RawQuery) (store : Store) :
    HandlerResult :=
  match validateSearchParams (preprocessSearchQuery raw) with
  | .error errs => .badRequest "Invalid search parameters" errs
  | .ok p =>
      match es with
      | some backend => .ok (esSearchResponse backend p store)
      | none => .ok (fallbackSearchResponse p store)

/- ### Pagination control (client/src/components/pagination.tsx) -/

/-- `let start = Math.max(2, currentPage - 1)` of `generatePages`. -/
def pgStart0 (cp : Nat) : Nat := max 2 (cp - 1)

/-- `let end = Math.min(totalPages - 1, currentPage + 1)`. -/
def pgEnd0 (cp tp : Nat) : Nat := min (tp - 1) (cp + 1)

/-- `if (start === 2) end = Math.min(totalPages - 1, start + 2)`: the value of
`end` after the first adjustment. -/
def pgEnd1 (cp tp : Nat) : Nat :=
  if pgStart0 cp = 2 then min (tp - 1) (pgStart0 cp + 2) else pgEnd0 cp tp

/-- `if (end === totalPages - 1) start = Math.max(2, end - 2)`: the value of
`start` after the second adjustment (which reads the adjusted `end`). -/
def pgStart1 (cp tp : Nat) : Nat :=
  if pgEnd1 cp tp = tp - 1 then max 2 (pgEnd1 cp tp - 2) else pgStart0 cp

/-- `generatePages` of the `Pagination` component: all pages when
`totalPages ≤ 7`; otherwise page 1, an optional ellipsis (`none`), the middle
window `start..end`, an optional ellipsis, and the last page. -/
def generatePages (cp tp : Nat) : List (Option Nat) :=
  if tp ≤ 7 then (List.range' 1 tp).map some
  else
    [some 1] ++
    (if pgStart1 cp tp > 2 then [none] else []) ++
    (List.range' (pgStart1 cp tp) (pgEnd1 cp tp + 1 - pgStart1 cp tp)).map some ++
    (if pgEnd1 cp tp < tp - 1 then [none] else []) ++
    [some tp]

/-- The rendered output of the `Pagination` component: `null` when
`totalPages ≤ 1`, else the page-number sequence. -/
def paginationRender (cp tp : Nat) : Option (List (Option Nat)) :=
  if tp ≤ 1 then none else some (generatePages cp tp)

example : generatePages 5 10 = [some 1, none, some 4, some 5, some 6, none, some 10] := by
  decide
example : generatePages 3 5 = [some 1, some 2, some 3, some 4, some 5] := by decide
example : generatePages 1 10 = [some 1, some 2, some 3, some 4, none, some 10] := by
  decide
example : generatePages 10 10 = [some 1, none, some 7, some 8, some 9, some 10] := by
  decide

theorem chain_lt_range_concat (t : Nat) :
    ∀ (k s : Nat), s + k ≤ t → List.Chain' (· < ·) (List.range' s k ++ [t]) := by
  intro k
  induction k with
  | zero =>
      intro s _
      simp
  | succ k ih =>
      intro s h
      rw [show List.range' s (k + 1) = s :: List.range' (s + 1) k from rfl,
        List.cons_append]
      refine List.chain'_cons'.mpr ⟨?_, ih (s + 1) (by omega)⟩
      intro b hb
      cases k with
      | zero =>
          simp at hb
          omega
      | succ k2 =>
          rw [show List.range' (s + 1) (k2 + 1) = (s + 1) :: List.range' (s + 2) k2
            from rfl, List.cons_append] at hb
          simp at hb
          omega

theorem chain_lt_pages (s e tp : Nat) (h2 : 1 < s) (hse : s ≤ e) (hetp : e < tp) :
    List.Chain' (fun a b => a < b) (1 :: (List.range' s (e + 1 - s) ++ [tp])) := by
  refine List.chain'_cons'.mpr ⟨?_, chain_lt_range_concat tp (e + 1 - s) s (by omega)⟩
  intro b hb
  obtain ⟨m, hm⟩ : ∃ m, e + 1 - s = m + 1 := ⟨e - s, by omega⟩
  rw [hm, show List.range' s (m + 1) = s :: List.range' (s + 1) m from rfl,
    List.cons_append] at hb
  simp at hb
  omega

theorem filterMap_id_map_some (l : List Nat) : (l.map some).filterMap id = l := by
  induction l with
  | nil => rfl
  | cons a t ih => simp [ih]

theorem filterMap_id_marker (c : Prop) [Decidable c] :
    ((if c then [(none : Option Nat)] else []) : List (Option Nat)).filterMap id
      = [] := by
  split <;> rfl

theorem pgBounds (cp tp : Nat) (h1 : 1 ≤ cp) (h2 : cp ≤ tp) (h7 : 7 < tp) :
    2 ≤ pgStart1 cp tp ∧ pgStart1 cp tp ≤ pgEnd1 cp tp ∧
    pgEnd1 cp tp ≤ tp - 1 ∧ pgEnd1 cp tp ≤ pgStart1 cp tp + 2 ∧
    pgStart1 cp tp ≤ cp + 1 ∧ cp - 1 ≤ pgEnd1 cp tp := by
  unfold pgStart1 pgEnd1 pgEnd0 pgStart0
  split_ifs <;> omega

theorem generatePages_filterMap (cp tp : Nat) (h7 : 7 < tp) :
    (generatePages cp tp).filterMap id
      = 1 :: (List.range' (pgStart1 cp tp) (pgEnd1 cp tp + 1 - pgStart1 cp tp)
          ++ [tp]) := by
  unfold generatePages
  rw [if_neg (by omega)]
  simp only [List.filterMap_append, filterMap_id_map_some, filterMap_id_marker]
  simp

/-- C7 (confirmed): for in-range `currentPage` and `totalPages`, the
pagination control renders nothing when `totalPages ≤ 1`, lists all pages when
`totalPages ≤ 7`, and otherwise produces page 1, the last page, a middle
window of at most 3 pages clamped inside `[2, totalPages-1]` around the
current page, with a single ellipsis marker exactly where each gap exists;
the page numbers are strictly increasing (hence no duplicate adjacent
numbers); `totalPages=10, currentPage=5` yields
`[1, …, 4, 5, 6, …, 10]` and `totalPages=5` yields `[1,2,3,4,5]`. -/
theorem c7_pagination (cp tp : Nat) (h1 : 1 ≤ cp) (h2 : cp ≤ tp) :
    (tp ≤ 1 → paginationRender cp tp = none) ∧
    (1 < tp → paginationRender cp tp = some (generatePages cp tp)) ∧
    (tp ≤ 7 → generatePages cp tp = (List.range' 1 tp).map some) ∧
    (7 < tp →
      2 ≤ pgStart1 cp tp ∧ pgStart1 cp tp ≤ pgEnd1 cp tp ∧
      pgEnd1 cp tp ≤ tp - 1 ∧ pgEnd1 cp tp ≤ pgStart1 cp tp + 2 ∧
      pgStart1 cp tp ≤ cp + 1 ∧ cp - 1 ≤ pgEnd1 cp tp ∧
      generatePages cp tp =
        [some 1] ++ (if pgStart1 cp tp > 2 then [none] else []) ++
        (List.range' (pgStart1 cp tp) (pgEnd1 cp tp + 1 - pgStart1 cp tp)).map
          some ++
        (if pgEnd1 cp tp < tp - 1 then [none] else []) ++ [some tp] ∧
      some 1 ∈ generatePages cp tp ∧ some tp ∈ generatePages cp tp ∧
      List.Chain' (fun a b => a < b) ((generatePages cp tp).filterMap id)) ∧
    (cp = 5 → tp = 10 →
      generatePages cp tp = [some 1, none, some 4, some 5, some 6, none, some 10]) ∧
    (tp = 5 → generatePages cp tp = [some 1, some 2, some 3, some 4, some 5]) := by
  refine ⟨?_, ?_, ?_, ?_, ?_, ?_⟩
  · intro h
    unfold paginationRender
    rw [if_pos h]
  · intro h
    unfold paginationRender
    rw [if_neg (by omega)]
  · intro h
    unfold generatePages
    rw [if_pos h]
  · intro h7
    obtain ⟨b1, b2, b3, b4, b5, b6⟩ := pgBounds cp tp h1 h2 h7
    have hgen : generatePages cp tp =
        [some 1] ++ (if pgStart1 cp tp > 2 then [none] else []) ++
        (List.range' (pgStart1 cp tp) (pgEnd1 cp tp + 1 - pgStart1 cp tp)).map
          some ++
        (if pgEnd1 cp tp < tp - 1 then [none] else []) ++ [some tp] := by
      unfold generatePages
      rw [if_neg (by omega)]
    refine ⟨b1, b2, b3, b4, b5, b6, hgen, ?_, ?_, ?_⟩
    · rw [hgen]; simp
    · rw [hgen]; simp
    · rw [generatePages_filterMap cp tp h7]
      exact chain_lt_pages (pgStart1 cp tp) (pgEnd1 cp tp) tp (by omega) b2
        (by omega)
  · intro hcp htp
    subst hcp htp
    decide
  · intro htp
    subst htp
    unfold generatePages
    rw [if_pos (by omega)]
    rfl

/-- C7 (witness): the pagination theorem applied at `currentPage = 5`,
`totalPages = 10`. -/
theorem c7_pagination_witness :
    (1 ≤ 5 ∧ 5 ≤ 10) ∧
    ((10 ≤ 1 → paginationRender 5 10 = none) ∧
    (1 < 10 → paginationRender 5 10 = some (generatePages 5 10)) ∧
    (10 ≤ 7 → generatePages 5 10 = (List.range' 1 10).map some) ∧
    (7 < 10 →
      2 ≤ pgStart1 5 10 ∧ pgStart1 5 10 ≤ pgEnd1 5 10 ∧
      pgEnd1 5 10 ≤ 10 - 1 ∧ pgEnd1 5 10 ≤ pgStart1 5 10 + 2 ∧
      pgStart1 5 10 ≤ 5 + 1 ∧ 5 - 1 ≤ pgEnd1 5 10 ∧
      generatePages 5 10 =
        [some 1] ++ (if pgStart1 5 10 > 2 then [none] else []) ++
        (List.range' (pgStart1 5 10) (pgEnd1 5 10 + 1 - pgStart1 5 10)).map
          some ++
        (if pgEnd1 5 10 < 10 - 1 then [none] else []) ++ [some 10] ∧
      some 1 ∈ generatePages 5 10 ∧ some 10 ∈ generatePages 5 10 ∧
      List.Chain' (fun a b => a < b) ((generatePages 5 10).filterMap id)) ∧
    (5 = 5 → 10 = 10 →
      generatePages 5 10 = [some 1, none, some 4, some 5, some 6, none, some 10]) ∧
    (10 = 5 → generatePages 5 10 = [some 1, some 2, some 3, some 4, some 5])) :=
  ⟨⟨by decide, by decide⟩, c7_pagination 5 10 (by decide) (by decide)⟩

/- ### Concrete inputs for the server-side claims -/

/-- An artifact row with a given id and neutral values elsewhere. -/
def mkBasicArtifact (i : Int) : Artifact :=
  { id := i, title := "Artifact", description := "d", culture := none
    period := none, date_start := none, date_end := none, materials := none
    dimensions := none, provenance := none, id_number := "N"
    findspot_lat := none, findspot_lng := none, site := none
    has_3d_model := some false, model_url := none, model_type := none
    created_at := none }

/-- The artifact of the enrichment scenario. -/
def c2artifact : Artifact := mkBasicArtifact 1

/-- A store holding one artifact with three images, inserted out of sort
order; the image that is second by `sort_order` (`u2`) is flagged primary. -/
def c2store : Store :=
  { artifacts := [c2artifact]
    images :=
      [⟨3, 1, "u3", none, some false, some 30⟩,
       ⟨1, 1, "u1", none, some false, some 10⟩,
       ⟨2, 1, "u2", none, some true, some 20⟩] }

/-- C2 (code bug, evaluated): for the artifact with three images whose second
image by sort order is flagged primary, the enrichment returns `image_urls` in
`sort_order` order (not insertion order) as the claim states, but
`primary_image_url` is the first image's URL (`urls[0] || null`), not the URL
of the image flagged primary: the `is_primary` flag is ignored by the
`/api/search` enrichment, although `artifact-detail-page.tsx`
(`images.find(img => img.is_primary) || images[0]`) and the image gallery
implement exactly the flagged-primary-first rule the claim describes. -/
theorem c2_enrichment_eval :
    (enrichArtifact c2store c2artifact).image_urls = ["u1", "u2", "u3"] ∧
    (c2store.images.filter (fun i => i.is_primary = some true)).map
        (fun i => i.url) = ["u2"] ∧
    (enrichArtifact c2store c2artifact).primary_image_url = some "u1" ∧
    (enrichArtifact c2store c2artifact).primary_image_url ≠ some "u2" := by
  decide

/-- Validated parameters with no filters, first page, default page size. -/
def c3params : SearchParams :=
  { query := none, cultures := none, materials := none, dateStart := none
    dateEnd := none, tags := none, site := none, has3dModel := false
    page := 1, limit := 12, sort := .relevance }

/-- A store with 13 artifact rows (one more than the default page size). -/
def c3store : Store :=
  { artifacts := (List.range 13).map (fun i => mkBasicArtifact ((i : Int) + 1))
    images := [] }

/-- C3 (code bug, evaluated): in fallback mode with 13 matching rows and page
size 12, the reported `total` is 12 — the number of rows on the returned page
(`artifacts.length`) — instead of the true row count 13; consequently
`totalPages` is 1 instead of 2, so the last row is unreachable. -/
theorem c3_fallback_total_eval :
    c3store.artifacts.length = 13 ∧
    (fallbackSearchResponse c3params c3store).artifacts.length = 12 ∧
    (fallbackSearchResponse c3params c3store).pagination.total = 12 ∧
    (fallbackSearchResponse c3params c3store).pagination.totalPages = 1 ∧
    (fallbackSearchResponse c3params c3store).pagination.total ≠ 13 := by
  decide

/-- C4 (confirmed): whenever the validated parameters carry a date bound (the
serialized form of a date range departing from the default, whose endpoints
stand for "unbounded"), the compiled engine query contains the range filter
with `gte` on the artifact's `date_start` and `lte` on its `date_end`; with
both bounds present an artifact matches it exactly when its dated span is
contained in the requested window (`requested start ≤ date_start` and
`date_end ≤ requested end`), and in general each present bound is enforced. -/
theorem c4_date_range_containment (p : SearchParams)
    (h : p.dateStart ≠ none ∨ p.dateEnd ≠ none) :
    ESClause.dateRange p.dateStart p.dateEnd
        ∈ (buildElasticsearchQuery p).query.filter ∧
    (∀ ds de : Int, p.dateStart = some ds → p.dateEnd = some de →
      ∀ aStart aEnd : Int,
        dateRangeMatches p.dateStart p.dateEnd aStart aEnd
          = (decide (ds ≤ aStart) && decide (aEnd ≤ de))) ∧
    (∀ aStart aEnd : Int,
      dateRangeMatches p.dateStart p.dateEnd aStart aEnd = true ↔
        ((∀ ds, p.dateStart = some ds → ds ≤ aStart) ∧
         (∀ de, p.dateEnd = some de → aEnd ≤ de))) := by
  refine ⟨?_, ?_, ?_⟩
  · show ESClause.dateRange p.dateStart p.dateEnd ∈ esFilterClauses p
    unfold esFilterClauses
    rw [if_pos h]
    simp [List.mem_append]
  · intro ds de h1 h2 aS aE
    rw [h1, h2]
    rfl
  · intro aS aE
    rcases hds : p.dateStart with _ | ds <;> rcases hde : p.dateEnd with _ | de <;>
      simp [dateRangeMatches, hds, hde]

/-- The scenario parameters: date range `[-500, 200]`, page 2, page size 12. -/
def c4params : SearchParams :=
  { query := none, cultures := none, materials := none
    dateStart := some (-500), dateEnd := some 200, tags := none, site := none
    has3dModel := false, page := 2, limit := 12, sort := .relevance }

/-- C4 (witness): the containment theorem applied at the concrete request with
`dateStart = -500` and `dateEnd = 200`. -/
theorem c4_date_range_witness :
    (c4params.dateStart ≠ none ∨ c4params.dateEnd ≠ none) ∧
    (ESClause.dateRange c4params.dateStart c4params.dateEnd
        ∈ (buildElasticsearchQuery c4params).query.filter ∧
    (∀ ds de : Int, c4params.dateStart = some ds → c4params.dateEnd = some de →
      ∀ aStart aEnd : Int,
        dateRangeMatches c4params.dateStart c4params.dateEnd aStart aEnd
          = (decide (ds ≤ aStart) && decide (aEnd ≤ de))) ∧
    (∀ aStart aEnd : Int,
      dateRangeMatches c4params.dateStart c4params.dateEnd aStart aEnd = true ↔
        ((∀ ds, c4params.dateStart = some ds → ds ≤ aStart) ∧
         (∀ de, c4params.dateEnd = some de → aEnd ≤ de)))) :=
  ⟨by decide, c4_date_range_containment c4params (by decide)⟩

theorem esSort_getD (p : SearchParams) :
    ((buildElasticsearchQuery p).sort).getD [] = esSortClauses p := by
  unfold buildElasticsearchQuery
  by_cases h : (esSortClauses p).length > 0
  · rw [if_pos h]
    rfl
  · rw [if_neg h]
    show ([] : List ESSort) = esSortClauses p
    have h0 : (esSortClauses p).length = 0 := by omega
    exact (List.length_eq_zero.mp h0).symm

/-- C5 (amended): neither compiled form carries an `id ascending` secondary
sort key. The engine query's sort array never contains `{ id: asc }` and has
at most one clause (`relevance` with a query text emits none at all, relying
on scoring; without a query text it emits the single clause `{ id: desc }`);
the fallback passes exactly one mapped field and one direction to the store.
Ties on the primary key are therefore left without a deterministic
tie-breaker, contrary to the claim. -/
theorem c5_no_id_tiebreak_amended (p : SearchParams) :
    (⟨"id", "asc"⟩ : ESSort) ∉ ((buildElasticsearchQuery p).sort).getD [] ∧
    (((buildElasticsearchQuery p).sort).getD []).length ≤ 1 ∧
    (p.sort = .relevance → strTruthy p.query = false →
      ((buildElasticsearchQuery p).sort).getD [] = [⟨"id", "desc"⟩]) := by
  rw [esSort_getD]
  refine ⟨?_, ?_, ?_⟩
  · rcases hs : p.sort with _ | _ | _ | _
    · simp only [esSortClauses, hs]
      split <;> simp
    · simp [esSortClauses, hs]
    · simp [esSortClauses, hs]
    · simp [esSortClauses, hs]
  · rcases hs : p.sort with _ | _ | _ | _
    · simp only [esSortClauses, hs]
      split <;> simp
    · simp [esSortClauses, hs]
    · simp [esSortClauses, hs]
    · simp [esSortClauses, hs]
  · intro h1 h2
    simp [esSortClauses, h1, h2]

/-- Parameters requesting the `date_asc` sort mode. -/
def c5params : SearchParams :=
  { query := none, cultures := none, materials := none, dateStart := none
    dateEnd := none, tags := none, site := none, has3dModel := false
    page := 1, limit := 12, sort := .date_asc }

/-- C5 (counterexample): for the `date_asc` sort mode the compiled engine
query's sort array is exactly `[{ date_start: asc }]` — it does not include
`{ id: asc }` as a secondary key — and the fallback maps to the single pair
(`date_start`, `asc`) with no secondary key either, refuting the claim that
every compiled query includes `id ascending` as a secondary sort key. -/
theorem c5_counterexample :
    (buildElasticsearchQuery c5params).sort = some [⟨"date_start", "asc"⟩] ∧
    (⟨"id", "asc"⟩ : ESSort) ∉ ((buildElasticsearchQuery c5params).sort).getD [] ∧
    getSortFieldFromSearchParams c5params.sort = SortField.date_start ∧
    getSortDirectionFromSearchParams c5params.sort = SortDir.asc := by
  decide

/-- The parameters with every filtering field cleared. -/
def clearFilters (p : SearchParams) : SearchParams :=
  { p with
      query := none
      cultures := none
      materials := none
      tags := none
      site := none
      has3dModel := false
      dateStart := none
      dateEnd := none }

/-- C6 (amended): the fallback branch ignores every filter (its response is
identical to the response for the same request with all filters cleared —
hence silently: no capability note of any kind is present in the response,
which carries only `artifacts` and `pagination`), uses exactly the single
sort field and direction mapped from the sort mode
(`date_asc`/`date_desc → date_start`, `az → title`, `relevance → id`), and
applies plain limit/offset pagination over the sorted store. -/
theorem c6_fallback_degradation_amended (p : SearchParams) (store : Store) :
    fallbackSearchResponse p store
        = fallbackSearchResponse (clearFilters p) store ∧
    (fallbackSearchResponse p store).pagination.page = p.page ∧
    (fallbackSearchResponse p store).pagination.limit = p.limit ∧
    (fallbackSearchResponse p store).artifacts
      = ((((sortByLE
            (artifactLE (getSortFieldFromSearchParams p.sort)
              (getSortDirectionFromSearchParams p.sort)) store.artifacts).drop
            ((p.page - 1) * p.limit).toNat).take p.limit.toNat).map
          (enrichArtifact store)) ∧
    getSortFieldFromSearchParams .date_asc = .date_start ∧
    getSortFieldFromSearchParams .date_desc = .date_start ∧
    getSortFieldFromSearchParams .az = .title ∧
    getSortFieldFromSearchParams .relevance = .id :=
  ⟨rfl, rfl, rfl, rfl, rfl, rfl, rfl, rfl⟩

/-- A two-artifact store for the degradation counterexample. -/
def c6store : Store :=
  { artifacts := [mkBasicArtifact 1, mkBasicArtifact 2], images := [] }

/-- Parameters with a facet selected. -/
def c6paramsFacets : SearchParams :=
  { query := none, cultures := some (.many ["Roman"]), materials := none
    dateStart := none, dateEnd := none, tags := none, site := none
    has3dModel := false, page := 1, limit := 12, sort := .relevance }

/-- The same parameters without the facet. -/
def c6paramsPlain : SearchParams := { c6paramsFacets with cultures := none }

/-- C6 (counterexample): with a facet selected, the fallback response is
byte-for-byte identical to the response for the same request without the
facet, so the response cannot carry any "explicit capability note informing
the caller that filters were ignored" — the degradation is silent, refuting
that part of the claim. -/
theorem c6_counterexample :
    c6paramsFacets.cultures = some (ZVal.many ["Roman"]) ∧
    c6paramsPlain.cultures = none ∧
    fallbackSearchResponse c6paramsFacets c6store
      = fallbackSearchResponse c6paramsPlain c6store := by
  decide

/- ### C10: rejection of an invalid sort parameter -/

/-- A raw request whose `sort` parameter is present with the invalid value
`"title"`. -/
def c10raw : RawQuery :=
  { query := none, cultures := none, materials := none, dateStart := none
    dateEnd := none, tags := none, site := none, has3dModel := none
    page := none, limit := none, sort := some "title" }

/-- The same raw request with `sort` present but empty (`?sort=`). -/
def c10emptyRaw : RawQuery := { c10raw with sort := some "" }

/-- An empty store. -/
def c10emptyStore : Store := { artifacts := [], images := [] }

/-- The validated parameters the handler derives from a request with no
meaningful parameters. -/
def c10defaultParams : SearchParams :=
  { query := none, cultures := none, materials := none, dateStart := none
    dateEnd := none, tags := none, site := none, has3dModel := false
    page := 1, limit := 12, sort := .relevance }

/-- C10 (amended): for every request whose `sort` parameter is present with a
non-empty value outside `{relevance, date_asc, date_desc, az}`, the handler
responds 400 with the structured validation error naming `sort`, and no search
is executed against either backend: the outcome is independent of the engine
client and of the store. An empty `sort` value is excluded because
`req.query.sort || 'relevance'` silently defaults it (see the
counterexample). -/
theorem c10_invalid_sort_amended (es : Option ESBackend) (raw : RawQuery)
    (store : Store) (s : String) (hs : raw.sort = some s) (hne : s ≠ "")
    (hmem : sortModeOfString s = none) :
    searchHandler es raw store
      = .badRequest "Invalid search parameters"
          (zodIssues (preprocessSearchQuery raw)) ∧
    "sort" ∈ zodIssues (preprocessSearchQuery raw) ∧
    (∀ (es2 : Option ESBackend) (store2 : Store),
      searchHandler es2 raw store2 = searchHandler es raw store) := by
  have hsort : sortModeOfString (preprocessSearchQuery raw).sort = none := by
    show sortModeOfString (jsOrStr raw.sort "relevance") = none
    rw [hs, jsOrStr_some, if_neg hne]
    exact hmem
  have hmem2 : "sort" ∈ zodIssues (preprocessSearchQuery raw) := by
    unfold zodIssues
    rw [hsort]
    simp
  have hne2 : zodIssues (preprocessSearchQuery raw) ≠ [] := by
    intro h0
    rw [h0] at hmem2
    exact absurd hmem2 (List.not_mem_nil _)
  refine ⟨?_, hmem2, ?_⟩
  · unfold searchHandler validateSearchParams
    rw [dif_neg hne2]
  · intro es2 store2
    unfold searchHandler validateSearchParams
    rw [dif_neg hne2]

/-- C10 (witness): the rejection theorem applied to the concrete request
`?sort=title` against the empty store with no engine configured. -/
theorem c10_invalid_sort_witness :
    c10raw.sort = some "title" ∧ "title" ≠ "" ∧
    sortModeOfString "title" = none ∧
    (searchHandler none c10raw c10emptyStore
        = .badRequest "Invalid search parameters"
            (zodIssues (preprocessSearchQuery c10raw)) ∧
      "sort" ∈ zodIssues (preprocessSearchQuery c10raw) ∧
      (∀ (es2 : Option ESBackend) (store2 : Store),
        searchHandler es2 c10raw store2 = searchHandler none c10raw c10emptyStore)) :=
  ⟨rfl, by decide, by decide,
    c10_invalid_sort_amended none c10raw c10emptyStore "title" rfl (by decide)
      (by decide)⟩

/-- C10 (counterexample): a request with the `sort` parameter present but
empty (`?sort=`) carries a value that is not one of the four allowed sort
modes, yet the handler does not respond 400: `req.query.sort || 'relevance'`
silently replaces the empty value with the default and the search executes
normally, refuting the claim for this input. -/
theorem c10_counterexample :
    c10emptyRaw.sort = some "" ∧
    ¬("" = "relevance" ∨ "" = "date_asc" ∨ "" = "date_desc" ∨ "" = "az") ∧
    searchHandler none c10emptyRaw c10emptyStore
      = .ok (fallbackSearchResponse c10defaultParams c10emptyStore) := by
  decide

/-- C5 (witness): the amended no-tie-break theorem applied at the `date_asc`
request. -/
theorem c5_no_id_tiebreak_witness :
    (⟨"id", "asc"⟩ : ESSort) ∉ ((buildElasticsearchQuery c5params).sort).getD [] ∧
    (((buildElasticsearchQuery c5params).sort).getD []).length ≤ 1 ∧
    (c5params.sort = .relevance → strTruthy c5params.query = false →
      ((buildElasticsearchQuery c5params).sort).getD [] = [⟨"id", "desc"⟩]) :=
  c5_no_id_tiebreak_amended c5params

/-- C6 (witness): the amended degradation theorem applied at the request with
the `Roman` facet selected against the two-artifact store. -/
theorem c6_fallback_degradation_witness :
    fallbackSearchResponse c6paramsFacets c6store
        = fallbackSearchResponse (clearFilters c6paramsFacets) c6store ∧
    (fallbackSearchResponse c6paramsFacets c6store).pagination.page
        = c6paramsFacets.page ∧
    (fallbackSearchResponse c6paramsFacets c6store).pagination.limit
        = c6paramsFacets.limit ∧
    (fallbackSearchResponse c6paramsFacets c6store).artifacts
      = ((((sortByLE
            (artifactLE (getSortFieldFromSearchParams c6paramsFacets.sort)
              (getSortDirectionFromSearchParams c6paramsFacets.sort))
            c6store.artifacts).drop
            ((c6paramsFacets.page - 1) * c6paramsFacets.limit).toNat).take
            c6paramsFacets.limit.toNat).map
          (enrichArtifact c6store)) ∧
    getSortFieldFromSearchParams .date_asc = .date_start ∧
    getSortFieldFromSearchParams .date_desc = .date_start ∧
    getSortFieldFromSearchParams .az = .title ∧
    getSortFieldFromSearchParams .relevance = .id :=
  c6_fallback_degradation_amended c6paramsFacets c6store
